import Mathlib

/-!
A shallow embedding of the CarDashX firmware (src/CarDashX.ino): the serial
byte-stream decoder (`processIncomingByte` / `handlePreviousState`), the
telemetry register bank (the `car*` globals, `rpmmax`, the `reverse` latch),
the RPM LED-bar computation (`map` plus the coloring loop), and the
button-driven configuration actions of `loop()`.

Machine integers are modelled as `Nat`/`Int` with explicit reduction
`% 65536` where the 16-bit AVR types (`int`, `unsigned int`, `word`) can
overflow; `long` is 32-bit but none of the `long` expressions here can
exceed 32 bits, so it is modelled as plain `Int`.  The two floating-point
constants of the source (`1.1` and `3.6`, evaluated in 32-bit AVR `float`
arithmetic) are modelled exactly via round-to-nearest-even on 24-bit
significands.  Display text output (`setDisplayToString`, `printModule`) is
device I/O and is not modelled; the LED mask handed to `setLEDs` is kept in
the state, as is an output trace of the commands committed by
`handlePreviousState`, reifying the decoder's completed-command stream.
-/

namespace CarDashX

/-- The decoder states, from `typedef enum { NONE, GOT_R, ... } states` in
CarDashX.ino. -/
inductive states where
  | NONE
  | GOT_R
  | GOT_S
  | GOT_G
  | GOT_O
  | GOT_W
  | GOT_F
  | GOT_L
  | GOT_P
  | GOT_STOP
  | GOT_START
  | GOT_MAXRPM
deriving DecidableEq

/-- A completed protocol command: kind plus the accumulated operand; Gear
additionally carries the state of the `reverse` latch at commit time.  This
reifies the completed-command stream produced by `handlePreviousState`. -/
inductive Command where
  | setRpmCeiling (v : ℕ)
  | rpm (v : ℕ)
  | speed (v : ℕ)
  | gear (v : ℕ) (rev : Bool)
  | oil (v : ℕ)
  | water (v : ℕ)
  | fuel (v : ℕ)
  | lap (v : ℕ)
  | pos (v : ℕ)
  | stop (v : ℕ)
  | start (v : ℕ)
deriving DecidableEq

/-- The global state of the firmware.  Default values are the C global
initializers of CarDashX.ino (uninitialized globals are zero).  `leds` is
the last argument handed to `module1.setLEDs`; `out` is the instrumentation
trace of commands committed by `handlePreviousState`. -/
structure Dash where
  carspeed : ℕ := 0
  cargear : ℕ := 0
  carrpm : ℕ := 0
  caroil : ℕ := 0
  carwater : ℕ := 0
  carfuel : ℕ := 0
  carlap : ℕ := 0
  carpos : ℕ := 0
  rpmleds : ℤ := 0
  rpmmax : ℕ := 1000
  speedmultiplier : Bool := false
  leftindicator : ℕ := 0
  rightindicator : ℕ := 1
  rpmstyle : ℕ := 1
  redleds : ℕ := 3
  reverse : Bool := false
  state : states := states.NONE
  currentValue : ℕ := 0
  leds : ℕ := 0
  out : List Command := []
deriving DecidableEq

/-- The firmware state right after `setup()` with the source's declared
configuration defaults (the EEPROM load in `setup` would overwrite the
configuration bytes; we take the declared initializer values). -/
def initState : Dash := {}

/-- `const byte indicator[] = { 'S','G','R','O','W','F','L' }` — the kinds a
display slot can cycle through. -/
def indicator : List Char := ['S', 'G', 'R', 'O', 'W', 'F', 'L']

/-- Fuel-bounded bit length, so that it evaluates by definitional
reduction. -/
def bitlenAux : ℕ → ℕ → ℕ
  | 0, _ => 0
  | fuel + 1, n => if n = 0 then 0 else bitlenAux fuel (n / 2) + 1

/-- Number of bits of a natural number (64 bits of fuel suffice for every
quantity appearing here). -/
def bitlen (n : ℕ) : ℕ := bitlenAux 64 n

/-- Round a natural number to 24 significant bits with round-to-nearest,
ties-to-even: the significand rounding performed by IEEE-754 single
precision multiplication (AVR `float`, and AVR `double` is also 32-bit). -/
def rn24 (p : ℕ) : ℕ :=
  if bitlen p ≤ 24 then p
  else
    (if 2 * (p % 2 ^ (bitlen p - 24)) > 2 ^ (bitlen p - 24) ∨
        (2 * (p % 2 ^ (bitlen p - 24)) = 2 ^ (bitlen p - 24) ∧
          p / 2 ^ (bitlen p - 24) % 2 = 1) then
      p / 2 ^ (bitlen p - 24) + 1
    else p / 2 ^ (bitlen p - 24)) * 2 ^ (bitlen p - 24)

/-- `(long)(m * 1.1)` computed in 32-bit float: `1.1f = 9227469 / 2^23`, the
product is rounded to 24 significant bits and then truncated toward zero. -/
def fmul11 (m : ℕ) : ℕ := rn24 (m * 9227469) / 2 ^ 23

/-- `(long)(m * 0.75)`: `0.75` and the product are exact in float for every
16-bit `m`, so the conversion to `long` is plain floor. -/
def fmul075 (m : ℕ) : ℕ := 3 * m / 4

/-- `(unsigned int)(v * 3.6)` computed in 32-bit float:
`3.6f = 15099494 / 2^22`; the out-of-range conversion to the 16-bit
unsigned type is modelled as wraparound. -/
def fmul36 (v : ℕ) : ℕ := rn24 (v * 15099494) / 2 ^ 22 % 65536

/-- Arduino `map(x, in_min, in_max, out_min, out_max)`: 32-bit `long`
arithmetic with C division (truncation toward zero) and, notably, no
clamping to the output range.  All arguments produced by this firmware fit
comfortably in 32 bits, so no wraparound is modelled. -/
def arduinoMap (x inMin inMax outMin outMax : ℤ) : ℤ :=
  ((x - inMin) * (outMax - outMin)).tdiv (inMax - inMin) + outMin

/-- `void processMaxRPM(const unsigned int value) { rpmmax = value; }` -/
def processMaxRPM (s : Dash) (value : ℕ) : Dash := { s with rpmmax := value }

/-- `processRPM`: `carrpm = value; if (carrpm > rpmmax && carrpm < 50000)
rpmmax = carrpm;` -/
def processRPM (s : Dash) (value : ℕ) : Dash :=
  if value > s.rpmmax ∧ value < 50000 then
    { s with carrpm := value, rpmmax := value }
  else
    { s with carrpm := value }

/-- `processSpeed`: `if (speedmultiplier) carspeed = value * 3.6; else
carspeed = value;` -/
def processSpeed (s : Dash) (value : ℕ) : Dash :=
  if s.speedmultiplier then { s with carspeed := fmul36 value }
  else { s with carspeed := value }

/-- `processGear`: `cargear = value;` -/
def processGear (s : Dash) (value : ℕ) : Dash := { s with cargear := value }

/-- `processOil`: `caroil = value;` -/
def processOil (s : Dash) (value : ℕ) : Dash := { s with caroil := value }

/-- `processWater`: `carwater = value;` -/
def processWater (s : Dash) (value : ℕ) : Dash := { s with carwater := value }

/-- `processFuel`: `carfuel = value;` -/
def processFuel (s : Dash) (value : ℕ) : Dash := { s with carfuel := value }

/-- `processLap`: `carlap = value;` -/
def processLap (s : Dash) (value : ℕ) : Dash := { s with carlap := value }

/-- `processPos`: `carpos = value;` -/
def processPos (s : Dash) (value : ℕ) : Dash := { s with carpos := value }

/-- `processStop`: clears the display and zeroes the LED bar; no telemetry
register changes. -/
def processStop (s : Dash) (_value : ℕ) : Dash := { s with leds := 0 }

/-- `processStart`: re-initializes the display with the operand as
brightness, zeroes the LED bar and resets `rpmmax` to 1000. -/
def processStart (s : Dash) (_value : ℕ) : Dash :=
  { s with leds := 0, rpmmax := 1000 }

/-- The `map` call of the `GOT_R` arm, selected by `rpmstyle`:
style 0 is `map(carrpm, 0, rpmmax * 1.1, 0, 10)`, style 1 is
`map(carrpm, rpmmax * 0.75, rpmmax * 1.0, 0, 10)`; the C `switch` has no
default, so any other style value leaves `rpmleds` unchanged. -/
def computeRpmleds (rpmstyle carrpm rpmmax : ℕ) (prev : ℤ) : ℤ :=
  match rpmstyle with
  | 0 => arduinoMap carrpm 0 (fmul11 rpmmax) 0 10
  | 1 => arduinoMap carrpm (fmul075 rpmmax) rpmmax 0 10
  | _ => prev

/-- The LED coloring loop of the `GOT_R` arm:
`for (i = 0; i < rpmleds; i++)` colors position `i` red
(`leds += 1 << i+8`) when `i >= 8 - redleds || rpmleds >= 9`, else green
(`leds += 1 << i`).  `leds` is a 16-bit `word` and `1` is a 16-bit `int`,
so every shift and the sum wrap modulo `2^16` (the de-facto avr-gcc
behavior); `8 - redleds` is computed in `int` and compared against the
unsigned counter `i`, modelled by the `emod 65536` conversion.  The C loop
counter is 16-bit, so the model is faithful for `rpmleds < 2^16` (for
larger values the C loop would not terminate). -/
def ledsFor (rpmleds : ℤ) (redleds : ℕ) : ℕ :=
  (List.range rpmleds.toNat).foldl
    (fun leds i =>
      if ((8 - (redleds : ℤ)) % 65536).toNat ≤ i ∨ 9 ≤ rpmleds then
        (leds + 2 ^ (i + 8) % 65536) % 65536
      else
        (leds + 2 ^ i % 65536) % 65536)
    0

/-- `handlePreviousState()`: commits the pending command selected by
`state` — runs the matching `process*` on `currentValue`, for `GOT_R`
recomputes `rpmleds` and the LED mask, for `GOT_G` consumes the `reverse`
latch — then clears `currentValue`.  Each arm also appends the committed
command to the instrumentation trace `out`. -/
def handlePreviousState (s : Dash) : Dash :=
  let s' :=
    match s.state with
    | states.GOT_MAXRPM =>
        { processMaxRPM s s.currentValue with
            out := s.out ++ [Command.setRpmCeiling s.currentValue] }
    | states.GOT_R =>
        let s1 := processRPM s s.currentValue
        let steps := computeRpmleds s1.rpmstyle s1.carrpm s1.rpmmax s1.rpmleds
        { s1 with
            rpmleds := steps,
            leds := ledsFor steps s1.redleds,
            out := s1.out ++ [Command.rpm s.currentValue] }
    | states.GOT_W =>
        { processWater s s.currentValue with
            out := s.out ++ [Command.water s.currentValue] }
    | states.GOT_F =>
        { processFuel s s.currentValue with
            out := s.out ++ [Command.fuel s.currentValue] }
    | states.GOT_O =>
        { processOil s s.currentValue with
            out := s.out ++ [Command.oil s.currentValue] }
    | states.GOT_S =>
        { processSpeed s s.currentValue with
            out := s.out ++ [Command.speed s.currentValue] }
    | states.GOT_G =>
        { processGear s s.currentValue with
            reverse := false,
            out := s.out ++ [Command.gear s.currentValue s.reverse] }
    | states.GOT_L =>
        { processLap s s.currentValue with
            out := s.out ++ [Command.lap s.currentValue] }
    | states.GOT_P =>
        { processPos s s.currentValue with
            out := s.out ++ [Command.pos s.currentValue] }
    | states.GOT_START =>
        { processStart s s.currentValue with
            out := s.out ++ [Command.start s.currentValue] }
    | states.GOT_STOP =>
        { processStop s s.currentValue with
            out := s.out ++ [Command.stop s.currentValue] }
    | states.NONE => s
  { s' with currentValue := 0 }

/-- `processIncomingByte(const byte c)`: digits are folded into
`currentValue` (a 16-bit `int`, hence the `% 65536`); any other byte except
`'-'` first commits the pending command via `handlePreviousState` and then
selects the new state; `'-'` skips the commit, sets the `reverse` latch and
switches to `GOT_G`. -/
def processIncomingByte (s : Dash) (c : Char) : Dash :=
  if c.isDigit then
    { s with currentValue := (s.currentValue * 10 + (c.toNat - 48)) % 65536 }
  else
    let s1 := if c = '-' then s else handlePreviousState s
    match c with
    | '-' => { s1 with reverse := true, state := states.GOT_G }
    | 'T' => { s1 with state := states.GOT_MAXRPM }
    | 'R' => { s1 with state := states.GOT_R }
    | 'S' => { s1 with state := states.GOT_S }
    | 'G' => { s1 with state := states.GOT_G }
    | 'O' => { s1 with state := states.GOT_O }
    | 'W' => { s1 with state := states.GOT_W }
    | 'F' => { s1 with state := states.GOT_F }
    | 'L' => { s1 with state := states.GOT_L }
    | 'P' => { s1 with state := states.GOT_P }
    | 'Z' => { s1 with state := states.GOT_STOP }
    | 'Y' => { s1 with state := states.GOT_START }
    | _ => { s1 with state := states.NONE }

/-- Feed a sequence of bytes, one `processIncomingByte` call per byte, as
the serial drain loop in `loop()` does. -/
def feedStr (s : Dash) : List Char → Dash
  | [] => s
  | c :: cs => feedStr (processIncomingByte s c) cs

/-- Button 1 in `loop()`: cycle the left-slot selector through
`indicator`. -/
def pressBtn1 (s : Dash) : Dash :=
  if s.leftindicator + 1 < indicator.length then
    { s with leftindicator := s.leftindicator + 1 }
  else { s with leftindicator := 0 }

/-- Button 2 in `loop()`: cycle the right-slot selector through
`indicator`. -/
def pressBtn2 (s : Dash) : Dash :=
  if s.rightindicator + 1 < indicator.length then
    { s with rightindicator := s.rightindicator + 1 }
  else { s with rightindicator := 0 }

/-- Button 5 in `loop()`: `redleds = (redleds + 1) % 9`. -/
def pressBtn5 (s : Dash) : Dash := { s with redleds := (s.redleds + 1) % 9 }

/-- Button 6 in `loop()`: user reset of the RPM ceiling, `rpmmax = 1000`. -/
def pressBtn6 (s : Dash) : Dash := { s with rpmmax := 1000 }

/-- Load a command into the machine as the pending one: the state/operand
(and, for Gear, the latch) that `handlePreviousState` reads when it commits
that command. -/
def setPending (c : Command) (s : Dash) : Dash :=
  match c with
  | Command.setRpmCeiling v => { s with state := states.GOT_MAXRPM, currentValue := v }
  | Command.rpm v => { s with state := states.GOT_R, currentValue := v }
  | Command.speed v => { s with state := states.GOT_S, currentValue := v }
  | Command.gear v rev =>
      { s with state := states.GOT_G, currentValue := v, reverse := rev }
  | Command.oil v => { s with state := states.GOT_O, currentValue := v }
  | Command.water v => { s with state := states.GOT_W, currentValue := v }
  | Command.fuel v => { s with state := states.GOT_F, currentValue := v }
  | Command.lap v => { s with state := states.GOT_L, currentValue := v }
  | Command.pos v => { s with state := states.GOT_P, currentValue := v }
  | Command.stop v => { s with state := states.GOT_STOP, currentValue := v }
  | Command.start v => { s with state := states.GOT_START, currentValue := v }

/-- The TelemetryStore `apply` operation: committing a completed command is
exactly running `handlePreviousState` with that command pending. -/
def applyCommand (c : Command) (s : Dash) : Dash :=
  handlePreviousState (setPending c s)

/-- The telemetry snapshot: the eight value registers, the reverse latch
and the RPM ceiling. -/
structure Snapshot where
  speed : ℕ
  gear : ℕ
  rpm : ℕ
  oil : ℕ
  water : ℕ
  fuel : ℕ
  lap : ℕ
  pos : ℕ
  reverse : Bool
  rpmCeiling : ℕ
deriving DecidableEq

/-- Project the telemetry snapshot out of the machine state. -/
def snapshot (s : Dash) : Snapshot :=
  ⟨s.carspeed, s.cargear, s.carrpm, s.caroil, s.carwater, s.carfuel,
    s.carlap, s.carpos, s.reverse, s.rpmmax⟩

/-- The telemetry value registers (including the ceiling), for the
commit-on-next-command law. -/
def registers (s : Dash) : List ℕ :=
  [s.carspeed, s.cargear, s.carrpm, s.caroil, s.carwater, s.carfuel,
    s.carlap, s.carpos, s.rpmmax]

/-- The base-10 integer a digit-byte sequence spells. -/
def decVal (ds : List Char) : ℕ :=
  ds.foldl (fun a c => a * 10 + (c.toNat - 48)) 0

/-- The commands that overwrite `rpmmax` outright (possibly decreasing
it): the `T` command (`processMaxRPM`) and the `Y` command
(`processStart`). -/
def isRpmmaxOverwrite : Command → Bool
  | Command.setRpmCeiling _ => true
  | Command.start _ => true
  | _ => false

/-- The `map` domain floor of each RPM bar style, as passed to `map` in the
`GOT_R` arm (0 for full range, `(long)(rpmmax * 0.75)` for high range). -/
def domFloor (style m : ℕ) : ℤ :=
  match style with
  | 0 => 0
  | _ => fmul075 m

/-- The `map` domain ceiling of each RPM bar style, as passed to `map` in
the `GOT_R` arm (`(long)(rpmmax * 1.1)` for full range, `rpmmax` for high
range). -/
def domCeil (style m : ℕ) : ℤ :=
  match style with
  | 0 => fmul11 m
  | _ => m

/-- A digit byte only folds into the operand accumulator. -/
lemma feed_digit (s : Dash) (c : Char) (h : c.isDigit) :
    processIncomingByte s c =
      { s with currentValue := (s.currentValue * 10 + (c.toNat - 48)) % 65536 } := by
  unfold processIncomingByte
  rw [if_pos h]

/-- With no command pending, `handlePreviousState` only clears the
accumulator. -/
lemma handlePrev_none (s : Dash) (hs : s.state = states.NONE) :
    handlePreviousState s = { s with currentValue := 0 } := by
  unfold handlePreviousState
  conv_lhs => rw [hs]

/-- A non-digit byte other than `'-'` runs `handlePreviousState` and then
only selects the next decoder state. -/
lemma feed_commit (s : Dash) (c : Char) (hd : c.isDigit = false)
    (hm : c ≠ '-') :
    ∃ st, processIncomingByte s c = { handlePreviousState s with state := st } := by
  unfold processIncomingByte
  rw [hd]
  simp only [Bool.false_eq_true, if_false, if_neg hm]
  split
  · exact absurd rfl hm
  all_goals exact ⟨_, rfl⟩

/-- Feeding a concatenation is feeding the pieces in order. -/
lemma feedStr_append (s : Dash) (l1 l2 : List Char) :
    feedStr s (l1 ++ l2) = feedStr (feedStr s l1) l2 := by
  induction l1 generalizing s with
  | nil => rfl
  | cons c cs ih => exact ih (processIncomingByte s c)

/-- Feeding a run of digit bytes only folds them into the accumulator. -/
lemma feedStr_digits (s : Dash) (ds : List Char) (hds : ∀ c ∈ ds, c.isDigit) :
    feedStr s ds =
      { s with currentValue :=
          ds.foldl (fun a c => (a * 10 + (c.toNat - 48)) % 65536) s.currentValue } := by
  induction ds generalizing s with
  | nil => rfl
  | cons c cs ih =>
      show feedStr (processIncomingByte s c) cs = _
      rw [feed_digit s c (hds c (List.mem_cons_self c cs))]
      rw [ih _ (fun x hx => hds x (List.mem_cons_of_mem c hx))]
      rfl

/-- Reducing the accumulator modulo 2^16 at every step agrees with reducing
the exact decimal value at the end. -/
lemma foldl_mod (ds : List Char) (a : ℕ) :
    ds.foldl (fun a c => (a * 10 + (c.toNat - 48)) % 65536) (a % 65536) =
      ds.foldl (fun a c => a * 10 + (c.toNat - 48)) a % 65536 := by
  induction ds generalizing a with
  | nil => rfl
  | cons c cs ih =>
      show cs.foldl _ ((a % 65536 * 10 + (c.toNat - 48)) % 65536) = _
      have h1 : (a % 65536 * 10 + (c.toNat - 48)) % 65536 =
          (a * 10 + (c.toNat - 48)) % 65536 := by omega
      rw [h1]
      exact ih (a * 10 + (c.toNat - 48))

/-- A non-positive fill level makes the LED loop run zero iterations. -/
lemma ledsFor_nonpos (steps : ℤ) (r : ℕ) (h : steps ≤ 0) :
    ledsFor steps r = 0 := by
  unfold ledsFor
  rw [Int.toNat_of_nonpos h]
  rfl

/-- When the fill level is at least 9, every loop iteration takes the red
branch, whatever the red-LED count. -/
lemma ledsFor_all_red (n : ℤ) (hn : 9 ≤ n) (r : ℕ) :
    ledsFor n r =
      (List.range n.toNat).foldl
        (fun leds i => (leds + 2 ^ (i + 8) % 65536) % 65536) 0 := by
  unfold ledsFor
  congr 1
  funext leds i
  rw [if_pos (Or.inr hn)]

/-- Claim C1 (confirmed): commit-on-next-command.  A pending command's
update to the telemetry registers (and its emission) happens exactly when
the next non-digit, non-minus byte is fed, and not before: digit and minus
bytes leave the registers and the committed-command trace untouched, any
other byte realizes exactly the `handlePreviousState` commit.  In
particular, after the registers hold rpm 777, feeding "R4250" leaves rpm
at 777, and the trailing 'T' of "R4250T" makes rpm 4250. -/
theorem C1_commit_on_next_command :
    (∀ (s : Dash) (c : Char),
        registers (processIncomingByte s c) =
          if c.isDigit ∨ c = '-' then registers s
          else registers (handlePreviousState s)) ∧
    (∀ (s : Dash) (c : Char),
        (processIncomingByte s c).out =
          if c.isDigit ∨ c = '-' then s.out
          else (handlePreviousState s).out) ∧
    (feedStr (feedStr initState ['R', '7', '7', '7', 'X'])
        ['R', '4', '2', '5', '0']).carrpm = 777 ∧
    (feedStr (feedStr initState ['R', '7', '7', '7', 'X'])
        ['R', '4', '2', '5', '0', 'T']).carrpm = 4250 ∧
    (feedStr initState ['R', '4', '2', '5', '0']).carrpm = 0 := by
  refine ⟨?_, ?_, by decide, by decide, by decide⟩ <;> intro s c <;>
    by_cases hd : c.isDigit = true
  · rw [if_pos (Or.inl hd), feed_digit s c hd]
    rfl
  · by_cases hm : c = '-'
    · subst hm
      rw [if_pos (Or.inr rfl)]
      rfl
    · rw [if_neg (by simp [hd, hm])]
      obtain ⟨st, h⟩ := feed_commit s c (by simpa using hd) hm
      rw [h]
      rfl
  · rw [if_pos (Or.inl hd), feed_digit s c hd]
  · by_cases hm : c = '-'
    · subst hm
      rw [if_pos (Or.inr rfl)]
      rfl
    · rw [if_neg (by simp [hd, hm])]
      obtain ⟨st, h⟩ := feed_commit s c (by simpa using hd) hm
      rw [h]

/-- Claim C10 (confirmed): a `'-'` byte never commits the pending command
(it is silently dropped, the whole state except the latch and the decoder
state is untouched, so in particular the accumulated operand survives), and
feeding "S95-2X" from idle emits no Speed command but a single Gear command
with operand 952 and reverse=true, leaving the speed register at its prior
value. -/
theorem C10_minus_drops_pending :
    (∀ s : Dash, processIncomingByte s '-' =
        { s with reverse := true, state := states.GOT_G }) ∧
    (feedStr initState ['S', '9', '5', '-', '2', 'X']).out =
      [Command.gear 952 true] ∧
    (feedStr initState ['S', '9', '5', '-', '2', 'X']).carspeed =
      initState.carspeed :=
  ⟨fun _ => rfl, by decide, by decide⟩

/-- Claim C2 (corrected) counterexample: from idle, feeding "-G3X" does NOT
yield Gear magnitude 3 with reverse=true as its first completed Gear
command; the 'G' byte itself commits a first Gear command with operand 0
and reverse=true, and the Gear command completed at 'X' has reverse already
reset to false. -/
theorem C2_counterexample :
    (feedStr initState ['-', 'G', '3', 'X']).out =
      [Command.gear 0 true, Command.gear 3 false] ∧
    (feedStr initState ['-', 'G', '3', 'X']).out.head? ≠
      some (Command.gear 3 true) := by
  decide

/-- Claim C2 (corrected, amended): the reverse round trip holds for the
wire order "G-3X" (minus between the command letter and the digits):
feeding it from idle completes exactly one Gear command, with magnitude 3
and reverse=true, and a subsequent "G3X" (no minus) completes a Gear
command with reverse=false. -/
theorem C2_amended_gear_round_trip :
    (feedStr initState ['G', '-', '3', 'X']).out = [Command.gear 3 true] ∧
    (feedStr (feedStr initState ['G', '-', '3', 'X']) ['G', '3', 'X']).out =
      [Command.gear 3 true, Command.gear 3 false] := by
  decide

/-- Claim C3 (code_bug): the slot selectors cycle through the source's
`indicator` array, which has only the 7 entries S, G, R, O, W, F, L —
Position ('P') is absent, although `handlePreviousState` contains display
code comparing the selected indicator against 'P'.  A selector at Lap
(index 6) wraps straight back to Speed (index 0).  The red-LED count part
of the claim does hold: button 5 steps `redleds` 0→1→…→8→0. -/
theorem C3_indicator_cycle :
    indicator = ['S', 'G', 'R', 'O', 'W', 'F', 'L'] ∧
    indicator.length = 7 ∧
    'P' ∉ indicator ∧
    (pressBtn1 { initState with leftindicator := 6 }).leftindicator = 0 ∧
    (pressBtn2 { initState with rightindicator := 6 }).rightindicator = 0 ∧
    (pressBtn5 { initState with redleds := 8 }).redleds = 0 ∧
    (pressBtn5 (pressBtn5 (pressBtn5 (pressBtn5 (pressBtn5 (pressBtn5
      (pressBtn5 (pressBtn5 (pressBtn5 initState))))))))).redleds =
      initState.redleds := by
  decide

/-- Claim C4 (corrected) counterexample: the fill level is NOT clamped to
[0,10].  From the default state (HighRangeOnly bar mode, ceiling 1000),
rendering rpm 0 — which is below the domain floor 750 — computes
`rpmleds = -30`, not the 0 the claim requires. -/
theorem C4_counterexample :
    (feedStr initState ['R', '0', 'X']).rpmleds = -30 ∧
    ¬(0 ≤ (feedStr initState ['R', '0', 'X']).rpmleds) ∧
    (feedStr initState ['R', '0', 'X']).rpmmax = 1000 ∧
    (feedStr initState ['R', '0', 'X']).rpmstyle = 1 := by
  decide

/-- Claim C4 (corrected, amended): the fill level is the unclamped
truncating linear map.  In both bar modes, whenever the mode's domain is
non-degenerate, an rpm at or below the domain floor yields `steps ≤ 0`
(possibly negative; the LED loop then lights nothing), and an rpm at or
above the domain ceiling yields `steps ≥ 10` (possibly above 10); the
computation cannot wrap, but it is not clamped to [0,10]. -/
theorem C4_amended_unclamped_fill (style m rpm : ℕ) (prev : ℤ)
    (hstyle : style = 0 ∨ style = 1)
    (hdom : domFloor style m < domCeil style m) :
    ((rpm : ℤ) ≤ domFloor style m →
      computeRpmleds style rpm m prev ≤ 0 ∧
      ∀ r : ℕ, ledsFor (computeRpmleds style rpm m prev) r = 0) ∧
    (domCeil style m ≤ (rpm : ℤ) →
      10 ≤ computeRpmleds style rpm m prev) := by
  rcases hstyle with h | h <;> subst h
  · simp only [domFloor, domCeil] at hdom ⊢
    simp only [computeRpmleds, arduinoMap, sub_zero, add_zero]
    constructor
    · intro hle
      have hz : (rpm : ℤ) = 0 :=
        le_antisymm hle (Int.ofNat_nonneg rpm)
      have h0 : ((rpm : ℤ) * (10 - 0)).tdiv (fmul11 m) = 0 := by
        rw [hz, zero_mul, Int.zero_tdiv]
      exact ⟨le_of_eq h0, fun r => ledsFor_nonpos _ r (le_of_eq h0)⟩
    · intro hge
      rw [Int.tdiv_eq_ediv (by positivity) (le_of_lt hdom)]
      rw [Int.le_ediv_iff_mul_le hdom]
      nlinarith
  · simp only [domFloor, domCeil] at hdom ⊢
    simp only [computeRpmleds, arduinoMap, add_zero]
    constructor
    · intro hle
      have h1 : ((rpm : ℤ) - fmul075 m) * (10 - 0) ≤ 0 := by nlinarith
      have h2 : (0 : ℤ) ≤ (m : ℤ) - fmul075 m := by linarith
      have h3 := Int.tdiv_nonneg (neg_nonneg.2 h1) h2
      rw [Int.neg_tdiv] at h3
      have h4 : (((rpm : ℤ) - fmul075 m) * (10 - 0)).tdiv
          ((m : ℤ) - fmul075 m) ≤ 0 := by linarith
      exact ⟨h4, fun r => ledsFor_nonpos _ r h4⟩
    · intro hge
      have h1 : (0 : ℤ) ≤ ((rpm : ℤ) - fmul075 m) * (10 - 0) := by nlinarith
      have h2 : (0 : ℤ) < (m : ℤ) - fmul075 m := by linarith
      rw [Int.tdiv_eq_ediv h1 (le_of_lt h2)]
      rw [Int.le_ediv_iff_mul_le h2]
      nlinarith

/-- Witness for C4: in HighRangeOnly mode with ceiling 1000 the domain is
the non-degenerate [750, 1000], and rendering rpm 4000 (at or above the
ceiling) yields a fill level of at least 10. -/
theorem C4_amended_unclamped_fill_witness :
    domFloor 1 1000 < domCeil 1 1000 ∧
    (domCeil 1 1000 ≤ ((4000 : ℕ) : ℤ) →
      10 ≤ computeRpmleds 1 4000 1000 0) :=
  ⟨by decide,
    (C4_amended_unclamped_fill 1 1000 4000 0 (Or.inr rfl) (by decide)).2⟩

/-- Claim C5 (corrected) counterexample: applying the SetRpmCeiling
command (wire letter `T`) overwrites `rpmmax` unconditionally, so it can
decrease it: from the initial ceiling 1000, `SetRpmCeiling 500` leaves
500 < 1000, contradicting the claim that applying SetRpmCeiling leaves the
ceiling at or above its prior value. -/
theorem C5_counterexample :
    initState.rpmmax = 1000 ∧
    (applyCommand (Command.setRpmCeiling 500) initState).rpmmax = 500 ∧
    ¬(initState.rpmmax ≤
        (applyCommand (Command.setRpmCeiling 500) initState).rpmmax) := by
  decide

/-- Claim C5 (corrected, amended): `rpmmax` is non-decreasing across every
applied command except the ones that overwrite it outright — Start (reset
to 1000), SetRpmCeiling (overwritten with the operand) — and the user reset
button, which also sets 1000; applying any other command (Rpm included)
leaves `rpmmax` at or above its prior value. -/
theorem C5_amended_ceiling_monotone (c : Command) (s : Dash)
    (h : isRpmmaxOverwrite c = false) :
    s.rpmmax ≤ (applyCommand c s).rpmmax ∧
    (∀ v, (applyCommand (Command.setRpmCeiling v) s).rpmmax = v) ∧
    (∀ v, (applyCommand (Command.start v) s).rpmmax = 1000) ∧
    (pressBtn6 s).rpmmax = 1000 := by
  refine ⟨?_, fun v => rfl, fun v => rfl, rfl⟩
  cases c with
  | setRpmCeiling v => exact absurd h (by simp [isRpmmaxOverwrite])
  | start v => exact absurd h (by simp [isRpmmaxOverwrite])
  | rpm v =>
      by_cases h1 : v > s.rpmmax ∧ v < 50000
      · simp only [applyCommand, setPending, handlePreviousState, processRPM,
          if_pos h1]
        omega
      · simp only [applyCommand, setPending, handlePreviousState, processRPM,
          if_neg h1]
        exact le_refl _
  | speed v =>
      by_cases hb : s.speedmultiplier <;>
        simp [applyCommand, setPending, handlePreviousState, processSpeed, hb]
  | gear v rev => exact le_rfl
  | oil v => exact le_rfl
  | water v => exact le_rfl
  | fuel v => exact le_rfl
  | lap v => exact le_rfl
  | pos v => exact le_rfl
  | stop v => exact le_rfl

/-- Witness for C5: the Rpm command does not overwrite the ceiling, and
applying Rpm 4250 to the initial state leaves the ceiling at or above its
prior value. -/
theorem C5_amended_ceiling_monotone_witness :
    isRpmmaxOverwrite (Command.rpm 4250) = false ∧
    initState.rpmmax ≤ (applyCommand (Command.rpm 4250) initState).rpmmax :=
  ⟨by decide,
    (C5_amended_ceiling_monotone (Command.rpm 4250) initState (by decide)).1⟩

/-- Claim C6 (confirmed): applying Rpm(v) always stores v into the rpm
register — even when v ≥ 50000 — and it raises the ceiling to v exactly
when v is strictly above the current ceiling and strictly below 50000;
otherwise the ceiling is unchanged. -/
theorem C6_rpm_store_and_ceiling (v : ℕ) (s : Dash) :
    (applyCommand (Command.rpm v) s).carrpm = v ∧
    (applyCommand (Command.rpm v) s).rpmmax =
      if v > s.rpmmax ∧ v < 50000 then v else s.rpmmax := by
  by_cases h1 : v > s.rpmmax ∧ v < 50000 <;>
    simp [applyCommand, setPending, handlePreviousState, processRPM, h1]

/-- Claim C7 (confirmed): at fill level 10 (and 9), the shift-warning rule
`steps >= 9` forces the red branch for every loop position regardless of
the configured red-LED count, so the emitted 16-bit mask has exactly bits
8 through 15 set (0xFF00); the loop iterations at i = 8 and i = 9 shift
past bit 15 and contribute nothing. -/
theorem C7_overflow_mask (redleds : ℕ) :
    ledsFor 10 redleds = 0xFF00 ∧ ledsFor 9 redleds = 0xFF00 := by
  constructor <;> rw [ledsFor_all_red _ (by norm_num) _] <;> decide

/-- Claim C8 (corrected) counterexample: the operand accumulator is a
16-bit machine integer, so a digit run spelling 65536 completes a Speed
command with operand 0, not 65536. -/
theorem C8_counterexample :
    (feedStr initState ['S', '6', '5', '5', '3', '6', 'G']).out =
      [Command.speed 0] ∧
    decVal ['6', '5', '5', '3', '6'] = 65536 := by
  decide

/-- Claim C8 (corrected, amended): for every sequence of ASCII digit bytes
fed after a command letter, the operand of the completed command equals the
base-10 integer the digits spell reduced modulo 2^16 (the accumulator is a
16-bit int); in particular it is exactly the spelled integer whenever that
is below 65536, e.g. "S95G" completes Speed with operand 95. -/
theorem C8_amended_operand_mod_2pow16 (s : Dash) (ds : List Char)
    (hs : s.state = states.NONE) (hds : ∀ c ∈ ds, c.isDigit) :
    (feedStr s ('S' :: (ds ++ ['G']))).out =
      s.out ++ [Command.speed (decVal ds % 65536)] := by
  have h1 : processIncomingByte s 'S' =
      { s with currentValue := 0, state := states.GOT_S } := by
    unfold processIncomingByte
    rw [if_neg (by decide : ¬(('S' : Char).isDigit = true))]
    rw [if_neg (by decide : ¬(('S' : Char) = '-'))]
    rw [handlePrev_none s hs]
    rfl
  have h2 : ds.foldl (fun a c => (a * 10 + (c.toNat - 48)) % 65536) 0 =
      decVal ds % 65536 := by
    have h3 := foldl_mod ds 0
    rw [Nat.zero_mod] at h3
    exact h3
  have h4 : feedStr s ('S' :: (ds ++ ['G'])) =
      feedStr (feedStr (processIncomingByte s 'S') ds) ['G'] :=
    feedStr_append (processIncomingByte s 'S') ds ['G']
  calc (feedStr s ('S' :: (ds ++ ['G']))).out
      = s.out ++
        [Command.speed
          (ds.foldl (fun a c => (a * 10 + (c.toNat - 48)) % 65536) 0)] := by
        rw [h4, h1, feedStr_digits _ ds hds]
        rfl
    _ = s.out ++ [Command.speed (decVal ds % 65536)] := by rw [h2]

/-- Witness for C8: from the initial state, feeding "S95G" (digits "95")
completes a Speed command with operand 95. -/
theorem C8_amended_operand_mod_2pow16_witness :
    initState.state = states.NONE ∧
    (∀ c ∈ (['9', '5'] : List Char), c.isDigit) ∧
    (feedStr initState ['S', '9', '5', 'G']).out =
      initState.out ++ [Command.speed (decVal ['9', '5'] % 65536)] ∧
    decVal ['9', '5'] % 65536 = 95 :=
  ⟨rfl, by decide,
    C8_amended_operand_mod_2pow16 initState ['9', '5'] rfl (by decide),
    by decide⟩

/-- Claim C9 (confirmed): applying the same command twice in a row yields
the same telemetry snapshot (speed, gear, rpm, oil, water, fuel, lap,
position, reverse latch, rpm ceiling) as applying it once; in particular
the second Rpm application never changes the ceiling, which after the
first application already equals or exceeds the value or is out of the
raise range. -/
theorem C9_apply_idempotent (c : Command) (s : Dash) :
    snapshot (applyCommand c (applyCommand c s)) =
      snapshot (applyCommand c s) := by
  cases c with
  | rpm v =>
      by_cases h1 : v > s.rpmmax ∧ v < 50000
      · have h2 : ¬(v > v ∧ v < 50000) := by omega
        simp [applyCommand, setPending, handlePreviousState, processRPM,
          snapshot, h1, h2]
      · simp [applyCommand, setPending, handlePreviousState, processRPM,
          snapshot, h1]
  | speed v =>
      by_cases hb : s.speedmultiplier <;>
        simp [applyCommand, setPending, handlePreviousState, processSpeed,
          snapshot, hb]
  | setRpmCeiling v =>
      simp [applyCommand, setPending, handlePreviousState, processMaxRPM,
        snapshot]
  | gear v rev =>
      simp [applyCommand, setPending, handlePreviousState, processGear,
        snapshot]
  | oil v =>
      simp [applyCommand, setPending, handlePreviousState, processOil,
        snapshot]
  | water v =>
      simp [applyCommand, setPending, handlePreviousState, processWater,
        snapshot]
  | fuel v =>
      simp [applyCommand, setPending, handlePreviousState, processFuel,
        snapshot]
  | lap v =>
      simp [applyCommand, setPending, handlePreviousState, processLap,
        snapshot]
  | pos v =>
      simp [applyCommand, setPending, handlePreviousState, processPos,
        snapshot]
  | stop v =>
      simp [applyCommand, setPending, handlePreviousState, processStop,
        snapshot]
  | start v =>
      simp [applyCommand, setPending, handlePreviousState, processStart,
        snapshot]

end CarDashX
